import Mathlib

/-!
Verification development for the pyCCMM metadata library.

The Python sources build `xml.etree.ElementTree` trees from typed dataclasses
(`ccmm_models.py`), mutate them through two handler facades (`ccmm_handler.py`
over the typed `Dataset`, and `ccmm_metadata_handler.py` over a flat element
tree), and validate/serialize them.  Here the element tree is embedded as the
inductive `Elem`, the dataclasses as structures, and each `to_xml_element`
method as a pure function producing the same tree the Python code builds.
Handler mutators, which in Python mutate `self` and may raise `ValueError`,
are embedded as functions returning the post-call state together with an
optional error message (`none` = no exception), so that the state after a
raising call is observable.
-/

namespace PyCCMM

/-- Embedding of an `xml.etree.ElementTree.Element`: tag, attributes,
text content and child elements. -/
inductive Elem : Type where
  | node (tag : String) (attrs : List (String × String)) (text : Option String)
      (children : List Elem) : Elem

def Elem.tagOf : Elem → String
  | .node t _ _ _ => t

def Elem.attrsOf : Elem → List (String × String)
  | .node _ a _ _ => a

def Elem.textOf : Elem → Option String
  | .node _ _ tx _ => tx

def Elem.childrenOf : Elem → List Elem
  | .node _ _ _ cs => cs

/-- Tags of the direct children of an element. -/
def Elem.childTags (e : Elem) : List String :=
  e.childrenOf.map Elem.tagOf

/-- Model of `ET.tostring` on the embedded tree (compact form, no
pretty-printing; presentation whitespace is out of scope per the spec). -/
def Elem.serialize : Elem → String
  | .node t attrs tx cs =>
    "<" ++ t
      ++ String.join (attrs.map (fun p => " " ++ p.1 ++ "=\"" ++ p.2 ++ "\""))
      ++ ">" ++ (tx.getD "")
      ++ String.join (cs.attach.map (fun c => Elem.serialize c.1))
      ++ "</" ++ t ++ ">"
decreasing_by
  have := List.sizeOf_lt_of_mem c.2
  simp only [Elem.node.sizeOf_spec]
  omega

/-- Python truthiness of an `Optional[str]`: present and non-empty. -/
def strSome : Option String → Bool
  | none => false
  | some s => !(s == "")

/-- The XML namespace-qualified language attribute key used by
`ccmm_models.py` (`\x7bhttp://www.w3.org/XML/1998/namespace\x7dlang`). -/
def xmlLangKey : String := "\x7bhttp://www.w3.org/XML/1998/namespace\x7dlang"

-- === Enumerated vocabularies (ccmm_models.py) ===

inductive Language where
  | CS | EN | DE | FR | ES | IT | SK
deriving DecidableEq

def Language.value : Language → String
  | .CS => "cs" | .EN => "en" | .DE => "de" | .FR => "fr"
  | .ES => "es" | .IT => "it" | .SK => "sk"

inductive AgentType where
  | PERSON | ORGANIZATION
deriving DecidableEq

inductive AgentRole where
  | CREATOR | CONTRIBUTOR | EDITOR | PUBLISHER | CURATOR | REVIEWER | CONTACT_PERSON
deriving DecidableEq

def AgentRole.value : AgentRole → String
  | .CREATOR => "creator" | .CONTRIBUTOR => "contributor" | .EDITOR => "editor"
  | .PUBLISHER => "publisher" | .CURATOR => "curator" | .REVIEWER => "reviewer"
  | .CONTACT_PERSON => "contact_person"

inductive IdentifierScheme where
  | DOI | HANDLE | ARK | ORCID | URL | UUID
deriving DecidableEq

def IdentifierScheme.value : IdentifierScheme → String
  | .DOI => "DOI" | .HANDLE => "Handle" | .ARK => "ARK"
  | .ORCID => "ORCID" | .URL => "URL" | .UUID => "UUID"

inductive SubjectScheme where
  | KEYWORD | CLASSIFICATION | FIELD_OF_SCIENCE
deriving DecidableEq

def SubjectScheme.value : SubjectScheme → String
  | .KEYWORD => "keyword" | .CLASSIFICATION => "classification"
  | .FIELD_OF_SCIENCE => "field_of_science"

inductive TimeReferenceType where
  | CREATED | UPDATED | ISSUED | AVAILABLE | SUBMITTED | ACCEPTED | COLLECTED
deriving DecidableEq

def TimeReferenceType.value : TimeReferenceType → String
  | .CREATED => "created" | .UPDATED => "updated" | .ISSUED => "issued"
  | .AVAILABLE => "available" | .SUBMITTED => "submitted"
  | .ACCEPTED => "accepted" | .COLLECTED => "collected"

inductive LocationType where
  | PLACE | REGION | COUNTRY | COORDINATES
deriving DecidableEq

def LocationType.value : LocationType → String
  | .PLACE => "place" | .REGION => "region" | .COUNTRY => "country"
  | .COORDINATES => "coordinates"

inductive DistributionFormat where
  | CSV | JSON | XML | PDF | ZIP | HTML | PLAIN_TEXT
deriving DecidableEq

def DistributionFormat.value : DistributionFormat → String
  | .CSV => "text/csv" | .JSON => "application/json" | .XML => "application/xml"
  | .PDF => "application/pdf" | .ZIP => "application/zip"
  | .HTML => "text/html" | .PLAIN_TEXT => "text/plain"

/-- A Python `datetime.date`, kept as its `isoformat()` text (dates only ever
reach the document as that text). -/
structure PyDate where
  iso : String
deriving DecidableEq

-- === Value entities (ccmm_models.py) ===

structure MultiLanguageText where
  text : String
  language : Language := Language.CS

def MultiLanguageText.to_xml_element (m : MultiLanguageText) (element_name : String) : Elem :=
  Elem.node element_name [(xmlLangKey, m.language.value)] (some m.text) []

structure Identifier where
  value : String
  scheme : IdentifierScheme
  iri : Option String := none
deriving DecidableEq

def Identifier.to_xml_element (i : Identifier) : Elem :=
  Elem.node "identifier" [] none
    ((if strSome i.iri then [Elem.node "iri" [] (some (i.iri.getD "")) []] else [])
      ++ [Elem.node "value" [] (some i.value) []]
      ++ [Elem.node "scheme" [] none [Elem.node "iri" [] (some i.scheme.value) []]])

structure AlternateTitle where
  titles : List MultiLanguageText
  alternate_title_type : Option String := none
  iri : Option String := none

def AlternateTitle.to_xml_element (a : AlternateTitle) : Elem :=
  Elem.node "alternate_title" [] none
    ((if strSome a.iri then [Elem.node "iri" [] (some (a.iri.getD "")) []] else [])
      ++ a.titles.map (fun t => t.to_xml_element "title")
      ++ (if strSome a.alternate_title_type then
            [Elem.node "alternate_title_type" [] none
              [Elem.node "iri" [] (some (a.alternate_title_type.getD "")) []]]
          else []))

structure Description where
  description_text : String
  description_type : Option String := none
  iri : Option String := none

def Description.to_xml_element (d : Description) : Elem :=
  Elem.node "has_description" [] none
    ((if strSome d.iri then [Elem.node "iri" [] (some (d.iri.getD "")) []] else [])
      ++ [Elem.node "description_text" [] (some d.description_text) []]
      ++ (if strSome d.description_type then
            [Elem.node "has_description_type" [] none
              [Elem.node "iri" [] (some (d.description_type.getD "")) []]]
          else []))

structure Subject where
  titles : List MultiLanguageText
  classification_code : Option String := none
  subject_scheme : Option SubjectScheme := none
  definitions : List MultiLanguageText := []
  iri : Option String := none

def Subject.to_xml_element (s : Subject) : Elem :=
  Elem.node "subject" [] none
    ((if strSome s.iri then [Elem.node "iri" [] (some (s.iri.getD "")) []] else [])
      ++ s.definitions.map (fun d => d.to_xml_element "definition")
      ++ s.titles.map (fun t => t.to_xml_element "title")
      ++ (if strSome s.classification_code then
            [Elem.node "classification_code" [] (some (s.classification_code.getD "")) []]
          else [])
      ++ (match s.subject_scheme with
          | some sc => [Elem.node "subject_scheme" [] none
              [Elem.node "iri" [] (some sc.value) []]]
          | none => []))

structure Agent where
  name : String
  agent_type : AgentType
  identifier : Option Identifier := none
  email : Option String := none
  affiliation : Option String := none
  iri : Option String := none

/-- The children rendered for one side of the organization/person choice:
optional iri, name, optional identifier (shared shape of both branches in
`ResourceToAgentRelationship.to_xml_element`). -/
def Agent.variantChildren (a : Agent) : List Elem :=
  (if strSome a.iri then [Elem.node "iri" [] (some (a.iri.getD "")) []] else [])
    ++ [Elem.node "name" [] (some a.name) []]
    ++ (match a.identifier with
        | some i => [i.to_xml_element]
        | none => [])

structure ResourceToAgentRelationship where
  agent : Agent
  role : AgentRole
  iri : Option String := none

/-- The single child of the `relation` element: the `xs:choice` between an
`organization` and a `person` sub-element, selected by the agent type. -/
def ResourceToAgentRelationship.relationChild (r : ResourceToAgentRelationship) : Elem :=
  match r.agent.agent_type with
  | .ORGANIZATION => Elem.node "organization" [] none r.agent.variantChildren
  | .PERSON => Elem.node "person" [] none r.agent.variantChildren

def ResourceToAgentRelationship.to_xml_element (r : ResourceToAgentRelationship) : Elem :=
  Elem.node "qualified_relation" [] none
    ((if strSome r.iri then [Elem.node "iri" [] (some (r.iri.getD "")) []] else [])
      ++ [Elem.node "role" [] (some r.role.value) []]
      ++ [Elem.node "relation" [] none [r.relationChild]])

structure TimeReference where
  time_value : String
  time_type : TimeReferenceType
  iri : Option String := none

def TimeReference.to_xml_element (t : TimeReference) : Elem :=
  Elem.node "time_reference" [] none
    [Elem.node "time_instant" [] none
      ((if strSome t.iri then [Elem.node "iri" [] (some (t.iri.getD "")) []] else [])
        ++ [Elem.node "date_type" [] none
              [Elem.node "iri" [] (some t.time_type.value) []]]
        ++ [Elem.node "date" [] (some t.time_value) []])]

structure Location where
  location_value : String
  location_type : LocationType
  iri : Option String := none

def Location.to_xml_element (l : Location) : Elem :=
  Elem.node "location" [] none
    ((if strSome l.iri then [Elem.node "iri" [] (some (l.iri.getD "")) []] else [])
      ++ [Elem.node "name" [] (some l.location_value) []]
      ++ [Elem.node "relation_type" [] none
            [Elem.node "iri" [] (some l.location_type.value) []]])

structure Distribution where
  access_url : String
  format_type : Option DistributionFormat := none
  title : Option String := none
  description : Option String := none
  iri : Option String := none

def Distribution.to_xml_element (d : Distribution) : Elem :=
  Elem.node "distribution" [] none
    [Elem.node "distribution_-_downloadable_file" [] none
      ((if strSome d.iri then [Elem.node "iri" [] (some (d.iri.getD "")) []] else [])
        ++ [Elem.node "title" [(xmlLangKey, "cs")]
              (some (if strSome d.title then d.title.getD "" else "Dataset file")) []]
        ++ [Elem.node "byte_size" [] (some "1000") []]
        ++ [Elem.node "access_url" [] none
              [Elem.node "iri" [] (some d.access_url) []]]
        ++ (match d.format_type with
            | some f => [Elem.node "format" [] none
                [Elem.node "iri" [] (some f.value) []]]
            | none => []))]

structure TermsOfUse where
  access_rights : String
  license_name : String
  iri : Option String := none
  description : Option String := none

def TermsOfUse.to_xml_element (t : TermsOfUse) : Elem :=
  Elem.node "terms_of_use" [] none
    ((if strSome t.iri then [Elem.node "iri" [] (some (t.iri.getD "")) []] else [])
      ++ (if strSome t.description then
            [Elem.node "description" [(xmlLangKey, "cs")] (some (t.description.getD "")) []]
          else [])
      ++ [Elem.node "access_rights" [] none
            [Elem.node "iri" [] (some t.access_rights) []]]
      ++ [Elem.node "license" [] none
            [Elem.node "iri" [] (some t.license_name) []]])

structure MetadataRecord where
  qualified_relations : List ResourceToAgentRelationship
  date_created : Option PyDate := none
  date_updated : List PyDate := []
  languages : List Language := []
  iri : Option String := none

def MetadataRecord.to_xml_element (m : MetadataRecord) : Elem :=
  Elem.node "is_described_by" [] none
    ((if strSome m.iri then [Elem.node "iri" [] (some (m.iri.getD "")) []] else [])
      ++ m.date_updated.map (fun u => Elem.node "date_updated" [] (some u.iso) [])
      ++ (match m.date_created with
          | some c => [Elem.node "date_created" [] (some c.iso) []]
          | none => [])
      ++ m.qualified_relations.map (fun r => r.to_xml_element)
      ++ m.languages.map (fun l =>
            Elem.node "language" [] none [Elem.node "iri" [] (some l.value) []]))

-- === Dataset aggregate root (ccmm_models.py) ===

structure Dataset where
  title : String
  publication_year : Int
  identifiers : List Identifier
  metadata_records : List MetadataRecord
  qualified_relations : List ResourceToAgentRelationship
  time_references : List TimeReference
  subjects : List Subject
  terms_of_use : TermsOfUse
  iri : Option String := none
  version : Option String := none
  descriptions : List Description := []
  alternate_titles : List AlternateTitle := []
  locations : List Location := []
  distributions : List Distribution := []
  primary_language : Option Language := none
  other_languages : List Language := []

/-- Model of `Dataset.to_xml_element`: children appended in the fixed XSD slot order
written out in the Python method (comments 1..21 there; slots 10, 14, 16,
18, 19 are unimplemented and emit nothing). -/
def Dataset.to_xml_element (d : Dataset) : Elem :=
  Elem.node "dataset" [] none
    ((if strSome d.iri then [Elem.node "iri" [] (some (d.iri.getD "")) []] else [])
      ++ [Elem.node "publication_year" [] (some (toString d.publication_year)) []]
      ++ (if strSome d.version then [Elem.node "version" [] (some (d.version.getD "")) []] else [])
      ++ [Elem.node "title" [] (some d.title) []]
      ++ d.descriptions.map (fun x => x.to_xml_element)
      ++ d.alternate_titles.map (fun x => x.to_xml_element)
      ++ d.metadata_records.map (fun x => x.to_xml_element)
      ++ d.identifiers.map (fun x => x.to_xml_element)
      ++ d.locations.map (fun x => x.to_xml_element)
      ++ d.qualified_relations.map (fun x => x.to_xml_element)
      ++ d.time_references.map (fun x => x.to_xml_element)
      ++ d.subjects.map (fun x => x.to_xml_element)
      ++ d.distributions.map (fun x => x.to_xml_element)
      ++ [d.terms_of_use.to_xml_element]
      ++ d.other_languages.map (fun l =>
            Elem.node "other_language" [] none [Elem.node "iri" [] (some l.value) []])
      ++ (match d.primary_language with
          | some l => [Elem.node "primary_language" [] none
              [Elem.node "iri" [] (some l.value) []]]
          | none => []))

-- === Input validators (ccmm_handler.py / ccmm_metadata_handler.py) ===
-- Each returns `none` on success and `some message` where Python raises
-- `ValueError(message)`.

/-- Python `not s.strip()`: true when the string is empty or whitespace-only
(`s.strip()` strips whitespace, so it is empty exactly when every character
is whitespace). -/
def pyBlank (s : String) : Bool :=
  s.toList.all Char.isWhitespace

/-- Model of `_validate_non_empty_string`: rejects `""` (`not value`) and
whitespace-only strings (`not value.strip()`). -/
def validate_non_empty_string (value : String) (field_name : String) : Option String :=
  if value == "" || pyBlank value then some (field_name ++ " cannot be empty.")
  else none

/-- Splits a character list at the first occurrence of `target`; `none` when
`target` does not occur. -/
def splitAtChar (target : Char) : List Char → Option (List Char × List Char)
  | [] => none
  | c :: cs =>
    if c = target then some ([], cs)
    else
      match splitAtChar target cs with
      | some (pre, post) => some (c :: pre, post)
      | none => none

/-- Modelled from the spec: the URI shape check delegates to the standard
library's `urlparse` (not part of this repository); per the spec it "must
parse with a non-empty scheme and a non-empty host/authority".  We model the
scheme as the text before the first `:`, and the authority as the text
between a following `//` and the next `/`. -/
def uriSchemeNetlocOk (uri : String) : Bool :=
  match splitAtChar ':' uri.toList with
  | none => false
  | some (scheme, rest) =>
    !scheme.isEmpty
      && (match rest with
          | '/' :: '/' :: tail => !((tail.takeWhile (fun c => c ≠ '/')).isEmpty)
          | _ => false)

/-- Model of `_validate_uri`: empty check, then scheme/netloc shape check. -/
def validate_uri (uri : String) : Option String :=
  if uri == "" || pyBlank uri then some "URI cannot be empty."
  else if uriSchemeNetlocOk uri then none
  else some ("Invalid URI format: " ++ uri)

/-- Model of `_validate_year`: rejects years below 1000 or above `current_year + 10`.
The wall clock is external, so the current year is an explicit argument. -/
def validate_year (year : Int) (current_year : Int) : Option String :=
  if year < 1000 ∨ year > current_year + 10 then
    some ("Publication year must be between 1000 and " ++ toString (current_year + 10) ++ ".")
  else none

/-- Splits a character list on every occurrence of `target` (model of
`str.split`, which the email regex shape is reduced to). -/
def splitOnChar (target : Char) : List Char → List (List Char)
  | [] => [[]]
  | c :: rest =>
    if c = target then [] :: splitOnChar target rest
    else
      match splitOnChar target rest with
      | [] => [[c]]
      | g :: gs => (c :: g) :: gs

/-- Modelled from the spec: `_validate_email` matches the source's regular
expression via the standard library's regex engine (not part of this
repository).  The pattern demands one or more local-part characters, `@`,
dot-separated domain labels, and a final label of at least two letters. -/
def emailOk (email : String) : Bool :=
  match splitOnChar '@' email.toList with
  | [localPart, domain] =>
    !localPart.isEmpty
      && localPart.all (fun c =>
          c.isAlphanum || c == '.' || c == '_' || c == '%' || c == '+' || c == '-')
      && (let parts := splitOnChar '.' domain
          let tld := (parts.getLast? ).getD []
          decide (parts.length ≥ 2)
            && (parts.dropLast.all (fun p => !p.isEmpty
                  && p.all (fun c => c.isAlphanum || c == '-')))
            && tld.all Char.isAlpha
            && decide (tld.length ≥ 2))
  | _ => false

/-- Model of `_validate_email`. -/
def validate_email (email : String) : Option String :=
  if emailOk email then none else some ("Invalid email format: " ++ email)

-- === CCMMHandler facade over the typed Dataset (ccmm_handler.py) ===
-- Each mutator returns the Dataset state after the call together with the
-- raised error, if any.

/-- The default TermsOfUse installed by `_init_empty_dataset`. -/
def default_terms : TermsOfUse :=
  { access_rights := "http://purl.org/coar/access_right/c_abf2"
    license_name := "http://creativecommons.org/licenses/by/4.0/"
    description := some "Default terms of use" }

/-- Model of `_init_empty_dataset`: the empty Dataset every handler starts from. -/
def init_empty_dataset : Dataset :=
  { title := ""
    publication_year := 2024
    identifiers := []
    metadata_records := []
    qualified_relations := []
    time_references := []
    subjects := []
    terms_of_use := default_terms }

def set_title (d : Dataset) (title : String) : Dataset × Option String :=
  match validate_non_empty_string title "Title" with
  | some e => (d, some e)
  | none => ({ d with title := title }, none)

def set_publication_year (d : Dataset) (year : Int) (current_year : Int) :
    Dataset × Option String :=
  match validate_year year current_year with
  | some e => (d, some e)
  | none => ({ d with publication_year := year }, none)

def set_version (d : Dataset) (version : String) : Dataset × Option String :=
  match validate_non_empty_string version "Version" with
  | some e => (d, some e)
  | none => ({ d with version := some version }, none)

def set_iri (d : Dataset) (iri : String) : Dataset × Option String :=
  match validate_uri iri with
  | some e => (d, some e)
  | none => ({ d with iri := some iri }, none)

def set_primary_language (d : Dataset) (language : Language) : Dataset × Option String :=
  ({ d with primary_language := some language }, none)

def add_other_language (d : Dataset) (language : Language) : Dataset × Option String :=
  if language ∈ d.other_languages then (d, none)
  else ({ d with other_languages := d.other_languages ++ [language] }, none)

def set_terms_of_use (d : Dataset) (access_rights license_name : String)
    (description : Option String) (iri : Option String) : Dataset × Option String :=
  match validate_non_empty_string access_rights "Access rights" with
  | some e => (d, some e)
  | none =>
    match validate_non_empty_string license_name "License name" with
    | some e => (d, some e)
    | none =>
      match (if strSome iri then validate_uri (iri.getD "") else none) with
      | some e => (d, some e)
      | none =>
        ({ d with terms_of_use :=
            { access_rights := access_rights, license_name := license_name
              description := description, iri := iri } }, none)

def add_identifier (d : Dataset) (value : String) (scheme : IdentifierScheme)
    (iri : Option String) : Dataset × Option String :=
  match validate_non_empty_string value "Identifier value" with
  | some e => (d, some e)
  | none =>
    match (if strSome iri then validate_uri (iri.getD "") else none) with
    | some e => (d, some e)
    | none =>
      ({ d with identifiers :=
          d.identifiers ++ [{ value := value, scheme := scheme, iri := iri }] }, none)

def add_description (d : Dataset) (description_text : String)
    (description_type : Option String) (iri : Option String) : Dataset × Option String :=
  match validate_non_empty_string description_text "Description text" with
  | some e => (d, some e)
  | none =>
    match (if strSome iri then validate_uri (iri.getD "") else none) with
    | some e => (d, some e)
    | none =>
      ({ d with descriptions := d.descriptions
          ++ [{ description_text := description_text
                description_type := description_type, iri := iri }] }, none)

def add_alternate_title (d : Dataset) (title : String) (language : Language)
    (alternate_title_type : Option String) (iri : Option String) : Dataset × Option String :=
  match validate_non_empty_string title "Alternate title" with
  | some e => (d, some e)
  | none =>
    match (if strSome iri then validate_uri (iri.getD "") else none) with
    | some e => (d, some e)
    | none =>
      ({ d with alternate_titles := d.alternate_titles
          ++ [{ titles := [{ text := title, language := language }]
                alternate_title_type := alternate_title_type, iri := iri }] }, none)

def add_subject (d : Dataset) (title : String) (language : Language)
    (classification_code : Option String) (subject_scheme : Option SubjectScheme)
    (definition : Option String) (iri : Option String) : Dataset × Option String :=
  match validate_non_empty_string title "Subject title" with
  | some e => (d, some e)
  | none =>
    match (if strSome iri then validate_uri (iri.getD "") else none) with
    | some e => (d, some e)
    | none =>
      ({ d with subjects := d.subjects
          ++ [{ titles := [{ text := title, language := language }]
                classification_code := classification_code
                subject_scheme := subject_scheme
                definitions :=
                  match definition with
                  | some df => if df == "" then [] else [{ text := df, language := language }]
                  | none => []
                iri := iri }] }, none)

def add_agent_relationship (d : Dataset) (agent_name : String) (role : AgentRole)
    (agent_type : AgentType) (agent_identifier : Option Identifier)
    (agent_email : Option String) (agent_affiliation : Option String)
    (iri : Option String) : Dataset × Option String :=
  match validate_non_empty_string agent_name "Agent name" with
  | some e => (d, some e)
  | none =>
    match (if strSome agent_email then validate_email (agent_email.getD "") else none) with
    | some e => (d, some e)
    | none =>
      match (if strSome iri then validate_uri (iri.getD "") else none) with
      | some e => (d, some e)
      | none =>
        ({ d with qualified_relations := d.qualified_relations
            ++ [{ agent := { name := agent_name, agent_type := agent_type
                             identifier := agent_identifier, email := agent_email
                             affiliation := agent_affiliation }
                  role := role, iri := iri }] }, none)

def add_time_reference (d : Dataset) (time_value : String)
    (time_type : TimeReferenceType) (iri : Option String) : Dataset × Option String :=
  match validate_non_empty_string time_value "Time value" with
  | some e => (d, some e)
  | none =>
    match (if strSome iri then validate_uri (iri.getD "") else none) with
    | some e => (d, some e)
    | none =>
      ({ d with time_references := d.time_references
          ++ [{ time_value := time_value, time_type := time_type, iri := iri }] }, none)

def add_location (d : Dataset) (location_value : String)
    (location_type : LocationType) (iri : Option String) : Dataset × Option String :=
  match validate_non_empty_string location_value "Location value" with
  | some e => (d, some e)
  | none =>
    match (if strSome iri then validate_uri (iri.getD "") else none) with
    | some e => (d, some e)
    | none =>
      ({ d with locations := d.locations
          ++ [{ location_value := location_value, location_type := location_type
                iri := iri }] }, none)

def add_distribution (d : Dataset) (access_url : String)
    (format_type : Option DistributionFormat) (title : Option String)
    (description : Option String) (iri : Option String) : Dataset × Option String :=
  match validate_uri access_url with
  | some e => (d, some e)
  | none =>
    match (if strSome iri then validate_uri (iri.getD "") else none) with
    | some e => (d, some e)
    | none =>
      ({ d with distributions := d.distributions
          ++ [{ access_url := access_url, format_type := format_type
                title := title, description := description, iri := iri }] }, none)

def add_metadata_record (d : Dataset)
    (qualified_relations : List ResourceToAgentRelationship)
    (date_created : Option PyDate) (date_updated : Option (List PyDate))
    (languages : Option (List Language)) (iri : Option String) : Dataset × Option String :=
  if qualified_relations.isEmpty then
    (d, some "Metadata record must have at least one qualified_relation")
  else
    match (if strSome iri then validate_uri (iri.getD "") else none) with
    | some e => (d, some e)
    | none =>
      ({ d with metadata_records := d.metadata_records
          ++ [{ qualified_relations := qualified_relations
                date_created := date_created
                date_updated := date_updated.getD []
                languages := languages.getD [], iri := iri }] }, none)

-- === Validation (ccmm_handler.py) ===

/-- The structural (required-field) half of `CCMMHandler.is_valid`: non-blank
title and non-empty identifiers, metadata_records, qualified_relations,
time_references and subjects. -/
def structuralOk (d : Dataset) : Bool :=
  !(pyBlank d.title)
    && !d.identifiers.isEmpty
    && !d.metadata_records.isEmpty
    && !d.qualified_relations.isEmpty
    && !d.time_references.isEmpty
    && !d.subjects.isEmpty

/-- Outcome of the external XSD validation step performed by
`_validate_against_xsd`: `Except.error` models any exception raised while
locating/reading/parsing the schema or document (the method catches it and
returns `False`), `Except.ok b` the boolean verdict of the schema library. -/
def xsdVerdict (outcome : Except String Bool) : Bool :=
  match outcome with
  | .ok b => b
  | .error _ => false

/-- Model of `CCMMHandler.is_valid`, with the external schema-validation outcome as an
explicit argument.  The early-return chain of the Python method; the
surrounding `try/except` is total here because every failure mode of the
external step is already a value of `outcome`. -/
def is_valid (d : Dataset) (outcome : Except String Bool) : Bool :=
  if pyBlank d.title then false
  else if d.identifiers.isEmpty then false
  else if d.metadata_records.isEmpty then false
  else if d.qualified_relations.isEmpty then false
  else if d.time_references.isEmpty then false
  else if d.subjects.isEmpty then false
  else xsdVerdict outcome

/-- Model of `CCMMHandler.to_xml_string` (compact path): render then serialize; the
Dataset itself is not touched. -/
def handler_to_xml_string (d : Dataset) : String :=
  (Dataset.to_xml_element d).serialize

/-- Model of `CCMMHandler.save_to_file`: refuses to write when `validate` is set and
`is_valid` fails; otherwise the written file content is returned.  The
filesystem is modelled by the result: `Except.error` means no file was
written. -/
def save_to_file (d : Dataset) (validate : Bool) (outcome : Except String Bool) :
    Except String String :=
  if validate && !(is_valid d outcome) then
    .error "Dataset is not valid. Fix validation errors before saving."
  else
    .ok ("<?xml version=\"1.0\" encoding=\"UTF-8\"?>\n"
          ++ (Dataset.to_xml_element d).serialize)

-- === CCMMMetadataHandler: flat element tree variant (ccmm_metadata_handler.py) ===

/-- State of a `CCMMMetadataHandler`: the children of the flat `dataset` root
element plus the three required-field flags. -/
structure MHState where
  children : List Elem
  req_title : Bool := false
  req_publication_year : Bool := false
  req_identifier : Bool := false

/-- The state right after `__init__`: empty `dataset` root, no flags set. -/
def mh_init : MHState := { children := [] }

/-- Model of `_validate_identifier`: non-blank and at most 255 characters. -/
def validate_identifier (identifier : String) : Option String :=
  if identifier == "" || pyBlank identifier then some "Identifier cannot be empty."
  else if identifier.length > 255 then some "Identifier is too long (max 255 characters)."
  else none

/-- The `identifier` element built by `CCMMMetadataHandler.add_identifier`:
`value`, then `scheme` (flat text), then — last, and only when present — the
`iri`. -/
def mh_identifier_elem (value scheme : String) (iri : Option String) : Elem :=
  Elem.node "identifier" [] none
    ([Elem.node "value" [] (some value) [], Elem.node "scheme" [] (some scheme) []]
      ++ (if strSome iri then [Elem.node "iri" [] (some (iri.getD "")) []] else []))

/-- Model of `CCMMMetadataHandler.add_identifier`: validates value, scheme and iri
before any mutation, then appends the identifier element and sets the flag. -/
def mh_add_identifier (s : MHState) (value scheme : String) (iri : Option String) :
    MHState × Option String :=
  match validate_identifier value with
  | some e => (s, some e)
  | none =>
    match validate_identifier scheme with
    | some e => (s, some e)
    | none =>
      match (if strSome iri then validate_uri (iri.getD "") else none) with
      | some e => (s, some e)
      | none =>
        ({ s with children := s.children ++ [mh_identifier_elem value scheme iri]
                  req_identifier := true }, none)

/-- Model of `CCMMMetadataHandler.add_alternate_title`.  Mirrors the statement order
of the Python method: the `alternate_title` element (with its `title` child)
is attached to the root by `ET.SubElement` before the optional `title_type`
is validated, so a whitespace-only `title_type` raises after that element is
already in the tree. -/
def mh_add_alternate_title (s : MHState) (title : String) (title_type : Option String) :
    MHState × Option String :=
  match validate_non_empty_string title "Alternate title" with
  | some e => (s, some e)
  | none =>
    if strSome title_type then
      match validate_non_empty_string (title_type.getD "") "Title type" with
      | some e =>
        ({ s with children := s.children
            ++ [Elem.node "alternate_title" [] none
                  [Elem.node "title" [] (some title) []]] }, some e)
      | none =>
        ({ s with children := s.children
            ++ [Elem.node "alternate_title" [] none
                  [Elem.node "title" [] (some title) [],
                   Elem.node "title_type" [] (some (title_type.getD "")) []]] }, none)
    else
      ({ s with children := s.children
          ++ [Elem.node "alternate_title" [] none
                [Elem.node "title" [] (some title) []]] }, none)

-- === The reorder pass (`CCMMMetadataHandler._reorder_elements`) ===

/-- The canonical 21-slot XSD sequence hard-coded in `_reorder_elements`. -/
def xsd_order : List String :=
  ["iri", "publication_year", "version", "title", "has_description", "alternate_title",
   "is_described_by", "identifier", "location", "provenance", "qualified_relation",
   "time_reference", "subject", "validation_result", "distribution", "funding_reference",
   "terms_of_use", "related_resource", "resource_type", "other_language", "primary_language"]

/-- The `element_mapping` dict of `_reorder_elements` (every entry maps a
name to itself). -/
def element_mapping : List (String × String) :=
  [("has_description", "has_description"), ("alternate_title", "alternate_title"),
   ("identifier", "identifier"), ("location", "location"),
   ("qualified_relation", "qualified_relation"), ("time_reference", "time_reference"),
   ("subject", "subject"), ("distribution", "distribution")]

/-- Model of `element_mapping.get(child.tag, child.tag)`. -/
def mapped_name (t : String) : String :=
  ((element_mapping.find? (fun p => p.1 == t)).map Prod.snd).getD t

/-- One step of the bucket-collection loop: append `c` to the bucket of its
mapped tag, creating the bucket at the end on first sight (Python dict
insertion order). -/
def addToBuckets (bs : List (String × List Elem)) (c : Elem) : List (String × List Elem) :=
  match bs with
  | [] => [(mapped_name c.tagOf, [c])]
  | (t, es) :: rest =>
    if t == mapped_name c.tagOf then (t, es ++ [c]) :: rest
    else (t, es) :: addToBuckets rest c

/-- The `elements` dict after the collection loop. -/
def buildBuckets (cs : List Elem) : List (String × List Elem) :=
  cs.foldl addToBuckets []

/-- Model of `elements[element_name]`: when present, nothing otherwise
(`if element_name in elements`). -/
def bucketLookup (t : String) : List (String × List Elem) → List Elem
  | [] => []
  | (u, es) :: rest => if u == t then es else bucketLookup t rest

/-- Model of `_reorder_elements` on the root's child list: collect buckets, clear,
re-emit in `xsd_order`. -/
def reorder_children (cs : List Elem) : List Elem :=
  (xsd_order.map (fun t => bucketLookup t (buildBuckets cs))).flatten

/-- Model of `CCMMMetadataHandler.to_xml_string` (compact path): `_reorder_elements`
mutates the stored tree, then the root is serialized; the call returns the
string and leaves the handler in the reordered state. -/
def mh_to_xml_string (s : MHState) : String × MHState :=
  let s1 : MHState := { s with children := reorder_children s.children }
  ((Elem.node "dataset" [] none s1.children).serialize, s1)

-- === Concrete example states used by the counterexamples ===

/-- A freshly initialised metadata handler (no children). -/
def mh_empty : MHState := mh_init

/-- A flat root populated in non-canonical order: an `identifier` child added
before the `title` child. -/
def mh_two : MHState :=
  { children := [Elem.node "identifier" [] none [], Elem.node "title" [] (some "T") []] }

/-- A DOI identifier carrying an iri, as in the spec's two-identifier
scenario. -/
def ex_identifier : Identifier :=
  { value := "10.1234/x", scheme := IdentifierScheme.DOI, iri := some "https://doi.org/x" }

-- ===================================================================
-- Theorems
-- ===================================================================

@[simp] theorem Elem.tagOf_node (t : String) (a : List (String × String))
    (tx : Option String) (cs : List Elem) : (Elem.node t a tx cs).tagOf = t := rfl

@[simp] theorem Elem.childrenOf_node (t : String) (a : List (String × String))
    (tx : Option String) (cs : List Elem) : (Elem.node t a tx cs).childrenOf = cs := rfl

@[simp] theorem tagOf_description (x : Description) :
    x.to_xml_element.tagOf = "has_description" := rfl

@[simp] theorem tagOf_alternate_title (x : AlternateTitle) :
    x.to_xml_element.tagOf = "alternate_title" := rfl

@[simp] theorem tagOf_metadata_record (x : MetadataRecord) :
    x.to_xml_element.tagOf = "is_described_by" := rfl

@[simp] theorem tagOf_identifier (x : Identifier) :
    x.to_xml_element.tagOf = "identifier" := rfl

@[simp] theorem tagOf_location (x : Location) :
    x.to_xml_element.tagOf = "location" := rfl

@[simp] theorem tagOf_qualified_relation (x : ResourceToAgentRelationship) :
    x.to_xml_element.tagOf = "qualified_relation" := rfl

@[simp] theorem tagOf_time_reference (x : TimeReference) :
    x.to_xml_element.tagOf = "time_reference" := rfl

@[simp] theorem tagOf_subject (x : Subject) :
    x.to_xml_element.tagOf = "subject" := rfl

@[simp] theorem tagOf_distribution (x : Distribution) :
    x.to_xml_element.tagOf = "distribution" := rfl

@[simp] theorem tagOf_terms_of_use (x : TermsOfUse) :
    x.to_xml_element.tagOf = "terms_of_use" := rfl

/-- Helper: the child-tag list of a rendered `Dataset` is exactly the
canonical slot concatenation. -/
theorem dataset_childTags (d : Dataset) :
    (Dataset.to_xml_element d).childTags =
      (if strSome d.iri then ["iri"] else [])
        ++ ["publication_year"]
        ++ (if strSome d.version then ["version"] else [])
        ++ ["title"]
        ++ List.replicate d.descriptions.length "has_description"
        ++ List.replicate d.alternate_titles.length "alternate_title"
        ++ List.replicate d.metadata_records.length "is_described_by"
        ++ List.replicate d.identifiers.length "identifier"
        ++ List.replicate d.locations.length "location"
        ++ List.replicate d.qualified_relations.length "qualified_relation"
        ++ List.replicate d.time_references.length "time_reference"
        ++ List.replicate d.subjects.length "subject"
        ++ List.replicate d.distributions.length "distribution"
        ++ ["terms_of_use"]
        ++ List.replicate d.other_languages.length "other_language"
        ++ (match d.primary_language with
            | some _ => ["primary_language"]
            | none => []) := by
  unfold Dataset.to_xml_element Elem.childTags
  cases hiri : strSome d.iri <;> cases hver : strSome d.version <;>
    cases hpl : d.primary_language <;>
      simp [hiri, hver, hpl, List.map_append, Function.comp_def]

/-- Helper: filtering a replicated tag list. -/
theorem filter_replicate_tag (p : String → Bool) (n : Nat) (a : String) :
    (List.replicate n a).filter p = if p a then List.replicate n a else [] := by
  induction n with
  | zero => simp
  | succ n ih =>
    simp only [List.replicate_succ, List.filter_cons, ih]
    cases h : p a <;> simp [h]

/-- C1. For every fully-populated Dataset, the top-level children of the
rendered document tree appear in the fixed 21-slot canonical order (iri,
publication_year, version, title, descriptions, alternate_titles, metadata
records, identifiers, locations, qualified relations, time references,
subjects, distributions, terms_of_use, other_languages, primary_language) —
the unimplemented slots emit nothing — regardless of the order in which the
caller populated the fields (the render depends only on the field contents);
in particular every identifier node precedes every distribution node. -/
theorem c1_canonical_top_level_order (d : Dataset) :
    (Dataset.to_xml_element d).childTags =
      (if strSome d.iri then ["iri"] else [])
        ++ ["publication_year"]
        ++ (if strSome d.version then ["version"] else [])
        ++ ["title"]
        ++ List.replicate d.descriptions.length "has_description"
        ++ List.replicate d.alternate_titles.length "alternate_title"
        ++ List.replicate d.metadata_records.length "is_described_by"
        ++ List.replicate d.identifiers.length "identifier"
        ++ List.replicate d.locations.length "location"
        ++ List.replicate d.qualified_relations.length "qualified_relation"
        ++ List.replicate d.time_references.length "time_reference"
        ++ List.replicate d.subjects.length "subject"
        ++ List.replicate d.distributions.length "distribution"
        ++ ["terms_of_use"]
        ++ List.replicate d.other_languages.length "other_language"
        ++ (match d.primary_language with
            | some _ => ["primary_language"]
            | none => [])
    ∧ (Dataset.to_xml_element d).childTags.filter
        (fun t => t == "identifier" || t == "distribution")
      = List.replicate d.identifiers.length "identifier"
        ++ List.replicate d.distributions.length "distribution" := by
  refine ⟨dataset_childTags d, ?_⟩
  rw [dataset_childTags d]
  cases hiri : strSome d.iri <;> cases hver : strSome d.version <;>
    cases hpl : d.primary_language <;>
      simp [List.filter_append, filter_replicate_tag]

/-- Helper: every entry of `element_mapping` maps a tag to itself, so the
dict lookup with default is the identity. -/
theorem mapped_name_id (t : String) : mapped_name t = t := by
  have h : ∀ p ∈ element_mapping, p.2 = p.1 := by decide
  unfold mapped_name
  rcases hf : element_mapping.find? (fun p => p.1 == t) with _ | q
  · rw [hf]
    rfl
  · rw [hf]
    have hq := List.find?_some hf
    have hmem : q ∈ element_mapping := List.mem_of_find?_eq_some hf
    have h1 : q.1 = t := by simpa using hq
    simp [h q hmem, h1]

/-- Helper: adding one child to the buckets extends exactly the bucket of
its tag, at the end, and no other bucket. -/
theorem bucketLookup_addToBuckets (bs : List (String × List Elem)) (c : Elem) (t : String) :
    bucketLookup t (addToBuckets bs c)
      = bucketLookup t bs ++ (if c.tagOf == t then [c] else []) := by
  induction bs with
  | nil =>
    simp only [addToBuckets, mapped_name_id, bucketLookup]
    cases h : (c.tagOf == t) <;> simp [bucketLookup, h]
  | cons hd rest ih =>
    obtain ⟨u, es⟩ := hd
    simp only [addToBuckets, mapped_name_id]
    cases h1 : (u == c.tagOf) <;> cases h2 : (u == t) <;>
      simp_all [bucketLookup, beq_iff_eq]
    exact fun hh => h1 hh.symm

/-- Helper: after folding the collection loop, each bucket is the filter of
the input by tag, with insertion order preserved. -/
theorem bucketLookup_foldl (cs : List Elem) :
    ∀ (bs : List (String × List Elem)) (t : String),
      bucketLookup t (cs.foldl addToBuckets bs)
        = bucketLookup t bs ++ cs.filter (fun c => c.tagOf == t) := by
  induction cs with
  | nil => intro bs t; simp
  | cons c cs ih =>
    intro bs t
    simp only [List.foldl_cons, ih, bucketLookup_addToBuckets, List.filter_cons]
    cases h : (c.tagOf == t) <;> simp [h, List.append_assoc]

/-- Helper: the reorder pass equals bucketing-by-filter in canonical order. -/
theorem reorder_children_eq (cs : List Elem) :
    reorder_children cs
      = (xsd_order.map (fun t => cs.filter (fun c => c.tagOf == t))).flatten := by
  unfold reorder_children buildBuckets
  have h : (fun t => bucketLookup t (cs.foldl addToBuckets []))
      = fun t => cs.filter (fun c => c.tagOf == t) := by
    funext t
    simpa [bucketLookup] using bucketLookup_foldl cs [] t
  rw [h]

/-- C5. The reorder pass buckets the flat root's children by tag name with
intra-tag insertion order preserved, emits the buckets in the canonical
21-slot order, and drops every child whose tag is not in the canonical
list. -/
theorem c5_reorder_canonical (cs : List Elem) :
    reorder_children cs
      = (xsd_order.map (fun t => cs.filter (fun c => c.tagOf == t))).flatten
    ∧ (reorder_children cs).all (fun c => xsd_order.contains c.tagOf) = true := by
  refine ⟨reorder_children_eq cs, ?_⟩
  rw [reorder_children_eq cs, List.all_eq_true]
  intro c hc
  rw [List.mem_flatten] at hc
  obtain ⟨l, hl, hcl⟩ := hc
  rw [List.mem_map] at hl
  obtain ⟨t, ht, rfl⟩ := hl
  have htag := (List.mem_filter.mp hcl).2
  have hct : c.tagOf = t := by simpa using htag
  exact List.elem_eq_true_of_mem (hct ▸ ht)

/-- Helper: filtering one bucket by a different tag gives nothing. -/
theorem filter_bucket_ne (u t : String) (hne : u ≠ t) (cs : List Elem) :
    (cs.filter (fun c => c.tagOf == u)).filter (fun c => c.tagOf == t) = [] := by
  induction cs with
  | nil => rfl
  | cons c cs ih =>
    simp only [List.filter_cons]
    cases h1 : (c.tagOf == u)
    · simpa using ih
    · have h2 : (c.tagOf == t) = false := by
        have : c.tagOf = u := by simpa using h1
        simp [this, hne]
      simp [List.filter_cons, h2, ih]

/-- Helper: a tag absent from the emission order contributes nothing. -/
theorem filter_flatten_not_mem (t : String) (order : List String) (cs : List Elem)
    (ht : t ∉ order) :
    ((order.map (fun u => cs.filter (fun c => c.tagOf == u))).flatten).filter
      (fun c => c.tagOf == t) = [] := by
  induction order with
  | nil => rfl
  | cons u rest ih =>
    simp only [List.map_cons, List.flatten_cons, List.filter_append]
    rw [filter_bucket_ne u t (fun h => ht (h ▸ List.mem_cons_self u rest)) cs,
      ih (fun h => ht (List.mem_cons_of_mem u h))]
    rfl

/-- Helper: for a duplicate-free order containing `t`, filtering the
re-emitted tree by `t` recovers the original `t`-bucket. -/
theorem filter_flatten_canonical (t : String) (order : List String) (cs : List Elem)
    (hnd : order.Nodup) (ht : t ∈ order) :
    ((order.map (fun u => cs.filter (fun c => c.tagOf == u))).flatten).filter
      (fun c => c.tagOf == t) = cs.filter (fun c => c.tagOf == t) := by
  induction order with
  | nil => cases ht
  | cons u rest ih =>
    simp only [List.map_cons, List.flatten_cons, List.filter_append]
    rcases List.mem_cons.mp ht with rfl | htr
    · have h1 : (cs.filter (fun c => c.tagOf == t)).filter (fun c => c.tagOf == t)
          = cs.filter (fun c => c.tagOf == t) := by
        rw [List.filter_filter]
        apply List.filter_congr
        intro c _
        cases h : (c.tagOf == t) <;> simp [h]
      have h2 := filter_flatten_not_mem t rest cs (List.nodup_cons.mp hnd).1
      rw [h1, h2, List.append_nil]
    · have hne : u ≠ t := fun h => (List.nodup_cons.mp hnd).1 (h ▸ htr)
      rw [filter_bucket_ne u t hne cs, List.nil_append,
        ih (List.nodup_cons.mp hnd).2 htr]

/-- Helper: the canonical slot list has no duplicate tag. -/
theorem xsd_order_nodup : xsd_order.Nodup := by decide

/-- Helper: the reorder pass is idempotent. -/
theorem reorder_children_idem (cs : List Elem) :
    reorder_children (reorder_children cs) = reorder_children cs := by
  rw [reorder_children_eq (reorder_children cs)]
  conv_rhs => rw [reorder_children_eq cs]
  apply congrArg List.flatten
  apply List.map_congr_left
  intro t ht
  rw [reorder_children_eq cs, filter_flatten_canonical t xsd_order cs xsd_order_nodup ht]

/-- C4 counterexample.  `CCMMMetadataHandler.to_xml_string` does not leave
the model state unchanged: on a root whose children were added as
`identifier` then `title`, the call reorders the stored tree in place. -/
theorem c4_counterexample :
    (mh_to_xml_string mh_two).2.children.map Elem.tagOf = ["title", "identifier"]
    ∧ mh_two.children.map Elem.tagOf = ["identifier", "title"]
    ∧ (mh_to_xml_string mh_two).2 ≠ mh_two := by
  have h1 : (mh_to_xml_string mh_two).2.children.map Elem.tagOf
      = ["title", "identifier"] := by rfl
  have h2 : mh_two.children.map Elem.tagOf = ["identifier", "title"] := by rfl
  refine ⟨h1, h2, fun heq => ?_⟩
  rw [heq, h2] at h1
  exact absurd h1 (by decide)

/-- C4 (amended).  Rendering from the typed `Dataset` is a pure function of
the state; the flat-tree `to_xml_string` mutates its stored tree by the
canonical reorder pass, but that pass is idempotent, so a repeated call
returns byte-identical output and leaves the state fixed. -/
theorem c4_render_deterministic_idempotent :
    (∀ d : Dataset, handler_to_xml_string d = (Dataset.to_xml_element d).serialize)
    ∧ (∀ cs : List Elem, reorder_children (reorder_children cs) = reorder_children cs)
    ∧ (∀ s : MHState,
        (mh_to_xml_string ((mh_to_xml_string s).2)).1 = (mh_to_xml_string s).1
        ∧ (mh_to_xml_string ((mh_to_xml_string s).2)).2 = (mh_to_xml_string s).2) := by
  refine ⟨fun d => rfl, reorder_children_idem, fun s => ?_⟩
  unfold mh_to_xml_string
  simp [reorder_children_idem]

/-- C2 counterexample.  `CCMMMetadataHandler.add_alternate_title` called
with a valid title and a whitespace-only `title_type` raises, yet the
`alternate_title` element is already attached to the tree: the state after
the rejected call differs from the state before it. -/
theorem c2_counterexample :
    (mh_add_alternate_title mh_empty "Valid title" (some " ")).2
        = some "Title type cannot be empty."
    ∧ (mh_add_alternate_title mh_empty "Valid title" (some " ")).1.children.map Elem.tagOf
        = ["alternate_title"]
    ∧ mh_empty.children.map Elem.tagOf = [] :=
  ⟨rfl, rfl, rfl⟩

/-- C2 (amended).  Every mutator of the `CCMMHandler` facade over the typed
`Dataset` validates all of its inputs before mutating: a call that raises
leaves the Dataset exactly as it was (each call either returns the input
state unchanged or raises nothing).  (The flat-tree
`CCMMMetadataHandler.add_alternate_title` violates this for a blank optional
`title_type` — see the counterexample.) -/
theorem c2_fail_before_write :
    (∀ (d : Dataset) (t : String),
      (set_title d t).1 = d ∨ (set_title d t).2 = none)
    ∧ (∀ (d : Dataset) (y cy : Int),
      (set_publication_year d y cy).1 = d ∨ (set_publication_year d y cy).2 = none)
    ∧ (∀ (d : Dataset) (v : String),
      (set_version d v).1 = d ∨ (set_version d v).2 = none)
    ∧ (∀ (d : Dataset) (u : String),
      (set_iri d u).1 = d ∨ (set_iri d u).2 = none)
    ∧ (∀ (d : Dataset) (L : Language),
      (set_primary_language d L).2 = none)
    ∧ (∀ (d : Dataset) (L : Language),
      (add_other_language d L).2 = none)
    ∧ (∀ (d : Dataset) (ar ln : String) (ds iri : Option String),
      (set_terms_of_use d ar ln ds iri).1 = d ∨ (set_terms_of_use d ar ln ds iri).2 = none)
    ∧ (∀ (d : Dataset) (v : String) (sc : IdentifierScheme) (iri : Option String),
      (add_identifier d v sc iri).1 = d ∨ (add_identifier d v sc iri).2 = none)
    ∧ (∀ (d : Dataset) (tx : String) (ty iri : Option String),
      (add_description d tx ty iri).1 = d ∨ (add_description d tx ty iri).2 = none)
    ∧ (∀ (d : Dataset) (t : String) (lg : Language) (ty iri : Option String),
      (add_alternate_title d t lg ty iri).1 = d
        ∨ (add_alternate_title d t lg ty iri).2 = none)
    ∧ (∀ (d : Dataset) (t : String) (lg : Language) (cc : Option String)
        (sc : Option SubjectScheme) (df iri : Option String),
      (add_subject d t lg cc sc df iri).1 = d ∨ (add_subject d t lg cc sc df iri).2 = none)
    ∧ (∀ (d : Dataset) (an : String) (ro : AgentRole) (ty : AgentType)
        (ai : Option Identifier) (em af iri : Option String),
      (add_agent_relationship d an ro ty ai em af iri).1 = d
        ∨ (add_agent_relationship d an ro ty ai em af iri).2 = none)
    ∧ (∀ (d : Dataset) (tv : String) (tt : TimeReferenceType) (iri : Option String),
      (add_time_reference d tv tt iri).1 = d ∨ (add_time_reference d tv tt iri).2 = none)
    ∧ (∀ (d : Dataset) (lv : String) (lt : LocationType) (iri : Option String),
      (add_location d lv lt iri).1 = d ∨ (add_location d lv lt iri).2 = none)
    ∧ (∀ (d : Dataset) (au : String) (ft : Option DistributionFormat)
        (ti ds iri : Option String),
      (add_distribution d au ft ti ds iri).1 = d
        ∨ (add_distribution d au ft ti ds iri).2 = none)
    ∧ (∀ (d : Dataset) (qr : List ResourceToAgentRelationship) (dc : Option PyDate)
        (du : Option (List PyDate)) (lgs : Option (List Language)) (iri : Option String),
      (add_metadata_record d qr dc du lgs iri).1 = d
        ∨ (add_metadata_record d qr dc du lgs iri).2 = none) := by
  refine ⟨?_, ?_, ?_, ?_, ?_, ?_, ?_, ?_, ?_, ?_, ?_, ?_, ?_, ?_, ?_, ?_⟩
  · intro d t
    unfold set_title
    repeat' split
    all_goals simp
  · intro d y cy
    unfold set_publication_year
    repeat' split
    all_goals simp
  · intro d v
    unfold set_version
    repeat' split
    all_goals simp
  · intro d u
    unfold set_iri
    repeat' split
    all_goals simp
  · intro d L
    rfl
  · intro d L
    unfold add_other_language
    repeat' split
    all_goals simp
  · intro d ar ln ds iri
    unfold set_terms_of_use
    repeat' split
    all_goals simp
  · intro d v sc iri
    unfold add_identifier
    repeat' split
    all_goals simp
  · intro d tx ty iri
    unfold add_description
    repeat' split
    all_goals simp
  · intro d t lg ty iri
    unfold add_alternate_title
    repeat' split
    all_goals simp
  · intro d t lg cc sc df iri
    unfold add_subject
    repeat' split
    all_goals simp
  · intro d an ro ty ai em af iri
    unfold add_agent_relationship
    repeat' split
    all_goals simp
  · intro d tv tt iri
    unfold add_time_reference
    repeat' split
    all_goals simp
  · intro d lv lt iri
    unfold add_location
    repeat' split
    all_goals simp
  · intro d au ft ti ds iri
    unfold add_distribution
    repeat' split
    all_goals simp
  · intro d qr dc du lgs iri
    unfold add_metadata_record
    repeat' split
    all_goals simp

/-- C3.  `CCMMHandler.is_valid` is a total boolean function (the embedding
returns `Bool`, never an exception — every exception of the external
schema-validation step arrives as the `Except.error` case of `outcome` and
is mapped to `false`), and its verdict is exactly the conjunction of the
structural required-field check with the schema-conformance verdict. -/
theorem c3_is_valid_conjunction (d : Dataset) (outcome : Except String Bool) :
    is_valid d outcome = (structuralOk d && xsdVerdict outcome) := by
  unfold is_valid structuralOk
  cases h1 : pyBlank d.title <;> cases h2 : d.identifiers.isEmpty <;>
    cases h3 : d.metadata_records.isEmpty <;> cases h4 : d.qualified_relations.isEmpty <;>
      cases h5 : d.time_references.isEmpty <;> cases h6 : d.subjects.isEmpty <;>
        simp [h1, h2, h3, h4, h5, h6]

/-- C6 counterexample.  The flat-tree `CCMMMetadataHandler.add_identifier`
path emits `value`, then `scheme` (flat text, not wrapping an iri), then the
`iri` last — not the `iri, value, scheme` order of
`Identifier.to_xml_element`; so the identifier sub-tree order is not the
same on every rendering path. -/
theorem c6_counterexample :
    (mh_add_identifier mh_empty "10.1234/x" "DOI" (some "https://doi.org/x")).2 = none
    ∧ (mh_add_identifier mh_empty "10.1234/x" "DOI" (some "https://doi.org/x")).1.children
        = [mh_identifier_elem "10.1234/x" "DOI" (some "https://doi.org/x")]
    ∧ (mh_identifier_elem "10.1234/x" "DOI" (some "https://doi.org/x")).childTags
        = ["value", "scheme", "iri"]
    ∧ (Identifier.to_xml_element ex_identifier).childTags = ["iri", "value", "scheme"]
    ∧ (["value", "scheme", "iri"] : List String) ≠ ["iri", "value", "scheme"] :=
  ⟨rfl, rfl, rfl, rfl, by decide⟩

/-- C6 (amended).  `Identifier.to_xml_element` — the renderer used both for
the Dataset's top-level identifiers and for agent identifiers
(`Agent.variantChildren`) — emits the optional iri first, then value, then a
scheme element wrapping an iri; the flat-tree `add_identifier` path instead
emits value, then a flat scheme, then the optional iri last. -/
theorem c6_identifier_subtree_order (i : Identifier) (a : Agent)
    (value scheme : String) (iri : Option String) :
    (Identifier.to_xml_element i).childTags
      = (if strSome i.iri then ["iri"] else []) ++ ["value", "scheme"]
    ∧ (Identifier.to_xml_element i).childrenOf.getLast?
      = some (Elem.node "scheme" [] none [Elem.node "iri" [] (some i.scheme.value) []])
    ∧ (Agent.variantChildren a).map Elem.tagOf
      = (if strSome a.iri then ["iri"] else []) ++ ["name"]
          ++ (match a.identifier with
              | some _ => ["identifier"]
              | none => [])
    ∧ (mh_identifier_elem value scheme iri).childTags
      = ["value", "scheme"] ++ (if strSome iri then ["iri"] else []) := by
  refine ⟨?_, ?_, ?_, ?_⟩
  · cases h : strSome i.iri <;>
      simp [Identifier.to_xml_element, Elem.childTags, h]
  · cases h : strSome i.iri <;>
      simp [Identifier.to_xml_element, h, List.getLast?]
  · cases h : strSome a.iri <;> cases hid : a.identifier <;>
      simp [Agent.variantChildren, h, hid]
  · cases h : strSome iri <;>
      simp [mh_identifier_elem, Elem.childTags, h]

/-- C7.  For every qualified relation, the rendered `qualified_relation`
element ends with a `relation` element whose children are exactly one
variant: an `organization` element when the agent type is ORGANIZATION, a
`person` element when it is PERSON — never both and never neither. -/
theorem c7_relation_variant_choice (r : ResourceToAgentRelationship) :
    (r.to_xml_element).childTags
      = (if strSome r.iri then ["iri"] else []) ++ ["role", "relation"]
    ∧ (r.to_xml_element).childrenOf.getLast?
      = some (Elem.node "relation" [] none [r.relationChild])
    ∧ (Elem.node "relation" [] none [r.relationChild]).childTags
      = [if r.agent.agent_type = AgentType.ORGANIZATION then "organization" else "person"] := by
  refine ⟨?_, ?_, ?_⟩
  · cases h : strSome r.iri <;>
      simp [ResourceToAgentRelationship.to_xml_element, Elem.childTags, h]
  · cases h : strSome r.iri <;>
      simp [ResourceToAgentRelationship.to_xml_element, h, List.getLast?]
  · cases hty : r.agent.agent_type <;>
      simp [ResourceToAgentRelationship.relationChild, Elem.childTags, hty]

/-- C8.  `save_to_file` with validation enabled refuses to write (raises the
descriptive error, leaving the modelled filesystem untouched — the error
result carries no written content) exactly when `is_valid` fails; with
validation disabled it writes the rendered document regardless of
validity. -/
theorem c8_save_refusal (d : Dataset) (outcome : Except String Bool) :
    save_to_file d true outcome
      = (if is_valid d outcome then
           Except.ok ("<?xml version=\"1.0\" encoding=\"UTF-8\"?>\n"
              ++ (Dataset.to_xml_element d).serialize)
         else Except.error "Dataset is not valid. Fix validation errors before saving.")
    ∧ save_to_file d false outcome
      = Except.ok ("<?xml version=\"1.0\" encoding=\"UTF-8\"?>\n"
          ++ (Dataset.to_xml_element d).serialize) := by
  unfold save_to_file
  cases h : is_valid d outcome <;> simp [h]

/-- C9.  `set_publication_year` accepts exactly the years in the closed
interval `[1000, current_year + 10]`; a rejected call raises and leaves the
stored publication year (indeed the whole Dataset) unchanged.  Boundary
facts: 999 and `current_year + 11` are always rejected; 1000 and
`current_year + 10` are accepted (instantiated at current years 990 and
2026). -/
theorem c9_publication_year_range (d : Dataset) (y cy : Int) :
    (set_publication_year d y cy
      = if 1000 ≤ y ∧ y ≤ cy + 10
        then ({ d with publication_year := y }, none)
        else (d, some ("Publication year must be between 1000 and "
               ++ toString (cy + 10) ++ ".")))
    ∧ (set_publication_year d 999 cy).1 = d
    ∧ ((set_publication_year d 999 cy).2).isSome = true
    ∧ (set_publication_year d (cy + 11) cy).1 = d
    ∧ ((set_publication_year d (cy + 11) cy).2).isSome = true
    ∧ (set_publication_year d 1000 990).2 = none
    ∧ (set_publication_year d (2026 + 10) 2026).2 = none := by
  refine ⟨?_, ?_, ?_, ?_, ?_, ?_, ?_⟩
  · by_cases h : y < 1000 ∨ y > cy + 10
    · rw [if_neg (by omega)]
      simp [set_publication_year, validate_year, h]
    · rw [if_pos (by omega)]
      simp [set_publication_year, validate_year, h]
  · simp [set_publication_year, validate_year,
      show (999 : Int) < 1000 ∨ (999 : Int) > cy + 10 from Or.inl (by norm_num)]
  · simp [set_publication_year, validate_year,
      show (999 : Int) < 1000 ∨ (999 : Int) > cy + 10 from Or.inl (by norm_num)]
  · simp [set_publication_year, validate_year,
      show (cy + 11 : Int) < 1000 ∨ (cy + 11 : Int) > cy + 10 from Or.inr (by omega)]
  · simp [set_publication_year, validate_year,
      show (cy + 11 : Int) < 1000 ∨ (cy + 11 : Int) > cy + 10 from Or.inr (by omega)]
  · simp [set_publication_year, validate_year,
      show ¬((1000 : Int) < 1000 ∨ (1000 : Int) > 990 + 10) from by omega]
  · simp [set_publication_year, validate_year,
      show ¬((2026 + 10 : Int) < 1000 ∨ (2026 + 10 : Int) > 2026 + 10) from by omega]

/-- Helper: starting from a Dataset whose language list has no duplicates,
any sequence of `add_other_language` calls keeps it duplicate-free. -/
theorem add_other_language_nodup_aux (ls : List Language) :
    ∀ d : Dataset, d.other_languages.Nodup →
      ((ls.foldl (fun d L => (add_other_language d L).1) d).other_languages).Nodup := by
  induction ls with
  | nil =>
    intro d h
    simpa using h
  | cons L ls ih =>
    intro d h
    simp only [List.foldl_cons]
    apply ih
    unfold add_other_language
    by_cases hm : L ∈ d.other_languages
    · simpa [hm] using h
    · simp only [hm, if_neg, ite_false]
      simp [List.nodup_append, h, hm]

/-- C10.  `add_other_language` deduplicates: it appends the language at the
end when absent and leaves the list completely unchanged when present;
hence it is idempotent, and starting from the freshly initialised handler
the list never contains duplicates. -/
theorem c10_add_other_language_dedup :
    (∀ (d : Dataset) (L : Language),
      add_other_language d L
        = if L ∈ d.other_languages then (d, none)
          else ({ d with other_languages := d.other_languages ++ [L] }, none))
    ∧ (∀ (d : Dataset) (L : Language),
      add_other_language (add_other_language d L).1 L = add_other_language d L)
    ∧ (∀ ls : List Language,
      (Dataset.other_languages
        (ls.foldl (fun d L => (add_other_language d L).1) init_empty_dataset)).Nodup) := by
  refine ⟨fun d L => rfl, ?_, ?_⟩
  · intro d L
    by_cases hm : L ∈ d.other_languages
    · simp [add_other_language, hm]
    · have h2 : L ∈ d.other_languages ++ [L] := by simp
      simp [add_other_language, hm, h2]
  · intro ls
    exact add_other_language_nodup_aux ls init_empty_dataset (by simp [init_empty_dataset])

end PyCCMM
